import Mathlib

/-!
Verification development for the RNB data.gouv.fr publication module
(`app/batid/services/data_gouv_publication.py`).

The module is a linear per-area publication pipeline: create a scratch
directory, extract a CSV from the database, zip and checksum it, upload the
archive to S3, publish/update the corresponding resource on data.gouv.fr,
and always remove the scratch directory.

The embedding below models:
  * the filesystem as the list of existing scratch-directory names,
  * `datetime.now()` as a monotone counter used in directory names,
  * external collaborators (database, S3, the data.gouv.fr HTTP API) as an
    oracle telling, per area and per pipeline stage, whether that stage
    raises an exception,
  * Python's `try/except/finally` control flow of `publish` explicitly,
    including the fact that the local variable `directory_name` survives
    from one loop iteration to the next and is unbound on the first one.

Pure helpers of the module (`sql_query`, `sha1sum`, the part-size
computation of `upload_to_s3`, `data_gouv_resource_id`,
`publish_on_data_gouv`, `get_area_publish_task`) are embedded as pure Lean
functions, translated line by line from the source.
-/

/-- The five pipeline stages of one area run inside `publish`'s `try`
block: `create_directory`, `create_csv`, `create_archive`, `upload_to_s3`
and `publish_on_data_gouv`. -/
inductive Stage
  | createDir
  | createCsv
  | createArchive
  | upload
  | portal
deriving DecidableEq, Repr

/-- Exceptions the embedded pipeline can raise: a failure injected by the
environment oracle at some stage, `FileExistsError` from `os.mkdir`,
`FileNotFoundError` from `shutil.rmtree`, and the `NameError` obtained when
the `finally` block reads `directory_name` before its first assignment. -/
inductive Err
  | injected (s : Stage)
  | fileExists (name : String)
  | fileNotFound (name : String)
  | nameError
deriving DecidableEq, Repr

/-- Observable side effects of a run, used to state that `publish` on an
empty area list performs none, and that a failing area stops the batch. -/
inductive Event
  | mkdir (name : String)
  | processing (area : String)
  | stageDone (s : Stage) (area : String)
  | rmdir (name : String)
deriving DecidableEq, Repr

/-- World state threaded through the pipeline: the scratch directories
present on disk, the `datetime.now()` counter, and the event log. -/
structure St where
  fs : List String
  t : Nat
  log : List Event
deriving DecidableEq, Repr

/-- Environment oracle: `env area s = true` means stage `s` raises while
processing `area` (a database error, an S3 SDK error, a non-200/201 HTTP
response, a permission error of `os.mkdir`, ...). -/
def Env : Type := String → Stage → Bool

/-- Name of the scratch directory created for `area`, from
`create_directory`: `datagouvfr_publication_{area}_{timestamp}` with the
timestamp modeled by the counter. -/
def dirName (area : String) (t : Nat) : String :=
  "datagouvfr_publication_" ++ area ++ "_" ++ toString t

/-- `create_directory(area)`: compute the timestamped name and `os.mkdir`
it. `os.mkdir` raises `FileExistsError` when the directory exists; the
oracle may make it raise for external reasons (stage `createDir`). -/
def create_directory (env : Env) (area : String) (st : St) :
    Except Err String × St :=
  let name := dirName area st.t
  let st1 : St := { st with t := st.t + 1 }
  if env area Stage.createDir then
    (Except.error (Err.injected Stage.createDir), st1)
  else if st1.fs.contains name then
    (Except.error (Err.fileExists name), st1)
  else
    (Except.ok name,
      { st1 with fs := name :: st1.fs, log := st1.log ++ [Event.mkdir name] })

/-- `cleanup_directory(directory_name)`: `shutil.rmtree`, which removes the
directory and its contents, and raises `FileNotFoundError` when the
directory does not exist. -/
def cleanup_directory (name : String) (st : St) : Except Err Unit × St :=
  if st.fs.contains name then
    (Except.ok (),
      { st with fs := st.fs.erase name, log := st.log ++ [Event.rmdir name] })
  else
    (Except.error (Err.fileNotFound name), st)

/-- One I/O stage (`create_csv`, `create_archive`, `upload_to_s3` or
`publish_on_data_gouv`) run for `area`: it either raises as dictated by the
oracle or records its effect. These stages write files only inside the
area's scratch directory, so the directory list is untouched. -/
def run_stage (env : Env) (s : Stage) (area : String) (st : St) :
    Except Err Unit × St :=
  if env area s then
    (Except.error (Err.injected s), st)
  else
    (Except.ok (), { st with log := st.log ++ [Event.stageDone s area] })

/-- The body of `publish`'s `try` block after `create_directory`:
`create_csv`, `create_archive`, `upload_to_s3`, `publish_on_data_gouv`,
in source order, stopping at the first raise. -/
def run_pipeline (env : Env) (area : String) (st : St) :
    Except Err Unit × St :=
  match run_stage env Stage.createCsv area st with
  | (Except.error e, st1) => (Except.error e, st1)
  | (Except.ok _, st1) =>
    match run_stage env Stage.createArchive area st1 with
    | (Except.error e, st2) => (Except.error e, st2)
    | (Except.ok _, st2) =>
      match run_stage env Stage.upload area st2 with
      | (Except.error e, st3) => (Except.error e, st3)
      | (Except.ok _, st3) =>
        run_stage env Stage.portal area st3

/-- One iteration of `publish`'s loop for `area`, with Python's scoping of
`directory_name` made explicit (`dirVar`): `try { directory_name =
create_directory(area); ...pipeline... } except { log; raise } finally {
cleanup_directory(directory_name) }`.

When `create_directory` raises, the `finally` block still runs
`cleanup_directory(directory_name)` on the PREVIOUS iteration's value of
`directory_name` (or hits `NameError` on the first iteration); an exception
raised inside `finally` replaces the in-flight one, as in Python. -/
def publish_area (env : Env) (area : String) (dirVar : Option String)
    (st : St) : Except Err Unit × Option String × St :=
  match create_directory env area st with
  | (Except.error e, st1) =>
    match dirVar with
    | none => (Except.error Err.nameError, none, st1)
    | some d =>
      match cleanup_directory d st1 with
      | (Except.ok _, st2) => (Except.error e, some d, st2)
      | (Except.error e2, st2) => (Except.error e2, some d, st2)
  | (Except.ok name, st1) =>
    let st1 := { st1 with log := st1.log ++ [Event.processing area] }
    match run_pipeline env area st1 with
    | (Except.ok _, st2) =>
      match cleanup_directory name st2 with
      | (Except.ok _, st3) => (Except.ok (), some name, st3)
      | (Except.error e2, st3) => (Except.error e2, some name, st3)
    | (Except.error e, st2) =>
      match cleanup_directory name st2 with
      | (Except.ok _, st3) => (Except.error e, some name, st3)
      | (Except.error e2, st3) => (Except.error e2, some name, st3)

/-- The loop of `publish` over `areas_list`: sequential, stopping with the
re-raised exception of the first failing area; returns `True` when every
area went through. -/
def publish_loop (env : Env) (areas : List String) (dirVar : Option String)
    (st : St) : Except Err Bool × St :=
  match areas with
  | [] => (Except.ok true, st)
  | area :: rest =>
    match publish_area env area dirVar st with
    | (Except.ok _, dirVar1, st1) => publish_loop env rest dirVar1 st1
    | (Except.error e, _, st1) => (Except.error e, st1)

/-- `publish(areas_list)` from the source: the loop started with
`directory_name` unbound. -/
def publish (env : Env) (areas : List String) (st : St) :
    Except Err Bool × St :=
  publish_loop env areas none st

/-! ## Multipart part size (`upload_to_s3`) -/

/-- Part size computed by `upload_to_s3`:
`part_size = max(1, int(archive_size * 1.2 / MAX_PARTS))` with
`MAX_PARTS = 1000`. Since `1.2 = 6/5` exactly and the operands are
nonnegative, the `int` truncation of `archive_size * 1.2 / 1000` is the
floor of `6 * archive_size / 5000`, i.e. natural-number division. -/
def part_size (archive_size : Nat) : Nat :=
  max 1 (6 * archive_size / 5000)

/-! ## SQL query construction (`sql_query`) -/

/-- The join fragment interpolated into the query for a department area:
`" LEFT JOIN batid_department_subdivided AS dpt ON ST_Intersects(dpt.shape, bdg.point)"`. -/
def dpt_join_frag : String :=
  " LEFT JOIN batid_department_subdivided AS dpt ON ST_Intersects(dpt.shape, bdg.point)"

/-- The filter fragment interpolated into the query for a department area:
`f" AND dpt.code = '{code_area}'"`. -/
def dpt_where_frag (code_area : String) : String :=
  " AND dpt.code = \x27" ++ code_area ++ "\x27"

/-- The part of the `COPY` query before the `{dpt_join}` interpolation
point, transcribed verbatim from the f-string of `sql_query`. -/
def sql_head : String :=
  "\n" ++
  "    COPY (\n" ++
  "        select bdg.rnb_id as rnb_id,\n" ++
  "        ST_AsEWKT(bdg.point) as point,\n" ++
  "        ST_AsEWKT(bdg.shape) as shape,\n" ++
  "        bdg.status as status,\n" ++
  "        bdg.ext_ids as ext_ids,\n" ++
  "        coalesce(json_agg(\n" ++
  "             json_build_object(\n" ++
  "                    \x27cle_interop_ban\x27, addr.id,\n" ++
  "                    \x27street_number\x27, addr.street_number,\n" ++
  "                    \x27street_rep\x27, addr.street_rep,\n" ++
  "                    \x27street\x27, addr.street,\n" ++
  "                    \x27city_zipcode\x27, addr.city_zipcode,\n" ++
  "                    \x27city_name\x27, addr.city_name\n" ++
  "                )\n" ++
  "\n" ++
  "        ) FILTER (WHERE addr.id IS NOT NULL), \x27[]\x27::json) AS addresses,\n" ++
  "        (\n" ++
  "           SELECT json_agg(json_build_object(\x27id\x27, p.id, \x27bdg_cover_ratio\x27,\n" ++
  "               CASE\n" ++
  "                   WHEN ST_GeometryType(bdg.shape) = \x27ST_Point\x27 THEN 1.0\n" ++
  "                   WHEN ST_GeometryType(bdg.shape) IN (\x27ST_Polygon\x27, \x27ST_MultiPolygon\x27) THEN\n" ++
  "                       CASE\n" ++
  "                           WHEN ST_Area(bdg.shape) > 0 THEN\n" ++
  "                               ST_Area(ST_Intersection(bdg.shape, p.shape)) / ST_Area(bdg.shape)\n" ++
  "                           ELSE 0.0\n" ++
  "                       END\n" ++
  "                   ELSE 0.0\n" ++
  "               END\n" ++
  "           ))\n" ++
  "           FROM batid_plot p\n" ++
  "           WHERE ST_Intersects(p.shape, bdg.shape)\n" ++
  "       ) AS plots\n" ++
  "        FROM batid_building bdg\n" ++
  "        LEFT JOIN batid_buildingaddressesreadonly bdg_addr ON bdg_addr.building_id = bdg.id\n" ++
  "        LEFT JOIN batid_address addr ON addr.id = bdg_addr.address_id\n" ++
  "        "

/-- The part of the `COPY` query between the `{dpt_join}` and `{dpt_where}`
interpolation points. -/
def sql_mid : String :=
  "\n" ++
  "        WHERE is_active\n" ++
  "        "

/-- The part of the `COPY` query after the `{dpt_where}` interpolation
point. -/
def sql_tail : String :=
  "\n" ++
  "        GROUP BY bdg.rnb_id, bdg.point, bdg.shape, bdg.status, bdg.ext_ids\n" ++
  "    )  TO STDOUT WITH CSV HEADER DELIMITER \x27;\x27\n" ++
  "    "

/-- `sql_query(code_area)` from the source: for `"nat"` both interpolated
fragments are empty; for any other area the join and filter fragments are
interpolated. -/
def sql_query (code_area : String) : String :=
  let dpt_where := if code_area = "nat" then "" else dpt_where_frag code_area
  let dpt_join := if code_area = "nat" then "" else dpt_join_frag
  sql_head ++ dpt_join ++ sql_mid ++ dpt_where ++ sql_tail

/-! ## Substring occurrence

A small executable substring checker used to state the containment claims
about the generated SQL and about error messages. -/

/-- `isPrefixB pat l = true` iff `pat` is an initial segment of `l`. -/
def isPrefixB : List Char → List Char → Bool
  | [], _ => true
  | _ :: _, [] => false
  | a :: as, b :: bs => a == b && isPrefixB as bs

/-- `isSubB pat l = true` iff `pat` occurs contiguously inside `l`. -/
def isSubB (pat : List Char) : List Char → Bool
  | [] => pat.isEmpty
  | c :: rest => isPrefixB pat (c :: rest) || isSubB pat rest

/-- `containsSub hay pat = true` iff the string `pat` occurs contiguously
inside the string `hay`. -/
def containsSub (hay pat : String) : Bool :=
  isSubB pat.data hay.data

/-! ## SHA-1 and `sha1sum`

`sha1sum` reads the archive in 128 KiB chunks (`bytearray(128 * 1024)`,
`f.readinto`) and feeds each chunk to a `hashlib.sha1()` object. The hash
object is modeled by the byte sequence it has absorbed — per the `hashlib`
contract, `m.update(a); m.update(b)` is equivalent to `m.update(a + b)` —
and `hexdigest` applies a full executable SHA-1 to the absorbed bytes. -/

/-- `2 ^ 32`, the SHA-1 word modulus. -/
def w32 : Nat := 4294967296

/-- Left rotation of a 32-bit word by `k` bits. -/
def rotl (k n : Nat) : Nat :=
  ((n <<< k) ||| (n >>> (32 - k))) % w32

/-- The SHA-1 round function for round `i`. -/
def sha1F (i b c d : Nat) : Nat :=
  if i < 20 then (b &&& c) ||| ((4294967295 ^^^ b) &&& d)
  else if i < 40 then b ^^^ c ^^^ d
  else if i < 60 then (b &&& c) ||| (b &&& d) ||| (c &&& d)
  else b ^^^ c ^^^ d

/-- The SHA-1 round constant for round `i`. -/
def sha1K (i : Nat) : Nat :=
  if i < 20 then 1518500249
  else if i < 40 then 1859775393
  else if i < 60 then 2400959708
  else 3395469782

/-- Big-endian grouping of bytes into 32-bit words. -/
def bytesToWords : List Nat → List Nat
  | b0 :: b1 :: b2 :: b3 :: rest =>
    (((b0 * 256 + b1) * 256 + b2) * 256 + b3) :: bytesToWords rest
  | _ => []

/-- Message-schedule extension: append `fuel` further words, each the
1-bit left rotation of the xor of the words 3, 8, 14 and 16 back. -/
def sha1Extend (ws : List Nat) : Nat → List Nat
  | 0 => ws
  | fuel + 1 =>
    let n := ws.length
    let x := rotl 1 ((ws.getD (n - 3) 0) ^^^ (ws.getD (n - 8) 0) ^^^
      (ws.getD (n - 14) 0) ^^^ (ws.getD (n - 16) 0))
    sha1Extend (ws ++ [x]) fuel

/-- The five 32-bit working registers of SHA-1. -/
structure Sha1Acc where
  a : Nat
  b : Nat
  c : Nat
  d : Nat
  e : Nat
deriving DecidableEq, Repr

/-- One SHA-1 round applied to the registers, given `(i, w i)`. -/
def sha1Round (st : Sha1Acc) (iw : Nat × Nat) : Sha1Acc :=
  let t := (rotl 5 st.a + sha1F iw.1 st.b st.c st.d + st.e + sha1K iw.1 + iw.2) % w32
  ⟨t, st.a, rotl 30 st.b, st.c, st.d⟩

/-- SHA-1 compression of one 64-byte block into the chaining value. -/
def sha1Compress (h : Sha1Acc) (block : List Nat) : Sha1Acc :=
  let ws := sha1Extend (bytesToWords block) 64
  let r := ws.enum.foldl sha1Round h
  ⟨(h.a + r.a) % w32, (h.b + r.b) % w32, (h.c + r.c) % w32,
    (h.d + r.d) % w32, (h.e + r.e) % w32⟩

/-- The 8-byte big-endian encoding of `n` (the message bit length). -/
def lenBytes8 (n : Nat) : List Nat :=
  [n / 72057594037927936 % 256, n / 281474976710656 % 256,
   n / 1099511627776 % 256, n / 4294967296 % 256,
   n / 16777216 % 256, n / 65536 % 256, n / 256 % 256, n % 256]

/-- SHA-1 padding: a `0x80` byte, zeros to 56 mod 64, then the bit length. -/
def sha1Pad (msg : List Nat) : List Nat :=
  let z := (119 - msg.length % 64) % 64
  msg ++ [128] ++ List.replicate z 0 ++ lenBytes8 (8 * msg.length)

/-- Split a byte list into consecutive chunks of `size` bytes (the last one
possibly shorter); empty for `size = 0`. -/
def chunksB (size : Nat) (l : List Nat) : List (List Nat) :=
  if _hs : size = 0 then []
  else
    match l with
    | [] => []
    | c :: rest => (c :: rest).take size :: chunksB size ((c :: rest).drop size)
termination_by l.length
decreasing_by
  simp only [List.length_drop]
  simp only [List.length_cons]
  omega

/-- The SHA-1 initial chaining value. -/
def sha1Init : Sha1Acc :=
  ⟨1732584193, 4023233417, 2562383102, 271733878, 3285377520⟩

/-- The SHA-1 chaining value after absorbing the whole padded message. -/
def sha1Words (msg : List Nat) : Sha1Acc :=
  (chunksB 64 (sha1Pad msg)).foldl sha1Compress sha1Init

/-- Lower-case hex digit. -/
def hexChar (n : Nat) : Char :=
  if n < 10 then Char.ofNat (48 + n) else Char.ofNat (87 + n)

/-- Eight-digit lower-case hex rendering of a 32-bit word. -/
def wordHex (n : Nat) : String :=
  String.mk [hexChar (n / 268435456 % 16), hexChar (n / 16777216 % 16),
    hexChar (n / 1048576 % 16), hexChar (n / 65536 % 16),
    hexChar (n / 4096 % 16), hexChar (n / 256 % 16),
    hexChar (n / 16 % 16), hexChar (n % 16)]

/-- The SHA-1 hex digest of a byte sequence (single pass over the whole
message). -/
def sha1hex (msg : List Nat) : String :=
  let h := sha1Words msg
  wordHex h.a ++ wordHex h.b ++ wordHex h.c ++ wordHex h.d ++ wordHex h.e

/-- A `hashlib.sha1()` object, modeled by the bytes it has absorbed:
`update` concatenates and `hexdigest` hashes the concatenation, per the
`hashlib` API contract. -/
structure HashObj where
  absorbed : List Nat
deriving DecidableEq, Repr

/-- `hashlib.sha1()`. -/
def sha1New : HashObj := ⟨[]⟩

/-- `h.update(data)`. -/
def hashUpdate (h : HashObj) (data : List Nat) : HashObj :=
  ⟨h.absorbed ++ data⟩

/-- `h.hexdigest()`. -/
def hexdigest (h : HashObj) : String :=
  sha1hex h.absorbed

/-- The `while n := f.readinto(mv): h.update(mv[:n])` loop of `sha1sum`:
each `readinto` on a regular file fills the buffer with the next
`min(bufSize, remaining)` bytes and returns that count; the loop stops when
it returns 0. -/
def sha1LoopRead (bufSize : Nat) (h : HashObj) (contents : List Nat) : HashObj :=
  if _hs : bufSize = 0 then h
  else
    match contents with
    | [] => h
    | c :: rest =>
      sha1LoopRead bufSize (hashUpdate h ((c :: rest).take bufSize))
        ((c :: rest).drop bufSize)
termination_by contents.length
decreasing_by
  simp only [List.length_drop]
  simp only [List.length_cons]
  omega

/-- `sha1sum(filename)` from the source, as a function of the file's
contents: chunked reads with a 128 KiB buffer, one `update` per chunk. -/
def sha1sum (contents : List Nat) : String :=
  hexdigest (sha1LoopRead 131072 sha1New contents)

/-- Single-pass SHA-1 over the whole contents, the reference point the
spec compares `sha1sum` against. -/
def sha1_single_pass (contents : List Nat) : String :=
  sha1hex contents

/-! ## Portal publication (`data_gouv_resource_id`, `publish_on_data_gouv`,
`data_gouv_create_resource`, `update_resource_metadata`)

The HTTP `GET` of the dataset is modeled by passing the fetched resource
list as an argument; the `POST`/`PUT` requests are modeled by returning the
list of portal calls the function performs, with their JSON bodies. -/

/-- A Python value appearing in the `format` field of a request body:
either a string, or the built-in `zip` function object (which is what the
bare name `zip` denotes in this module, since only `ZipFile` and
`ZIP_DEFLATED` are imported from `zipfile`). -/
inductive PyVal
  | str (s : String)
  | builtinZip
deriving DecidableEq, Repr

/-- One entry of the dataset's `resources` list returned by the portal. -/
structure Resource where
  format : String
  title : String
  id : String
deriving DecidableEq, Repr

/-- The JSON body sent by `data_gouv_create_resource` and
`update_resource_metadata`: both send `title`, `description`,
`type: "main"`, `url`, `filetype: "remote"`, `format`, `filesize` and a
`checksum` object. (The `created_at` / `extras` timestamp fields are not
modeled; they carry `datetime.now()` only.) -/
structure ResourceBody where
  title : String
  description : String
  rtype : String
  url : String
  filetype : String
  format : PyVal
  filesize : Nat
  checksumType : String
  checksumValue : String
deriving DecidableEq, Repr

/-- A portal mutation performed by `publish_on_data_gouv`: a `POST`
creating a resource, or a `PUT` updating the resource with the given id. -/
inductive PortalCall
  | create (body : ResourceBody)
  | update (resourceId : String) (body : ResourceBody)
deriving DecidableEq, Repr

/-- The `format` field carried by a portal call's body. -/
def PortalCall.format : PortalCall → PyVal
  | PortalCall.create body => body.format
  | PortalCall.update _ body => body.format

/-- The match condition of the `for resource in resources` loop of
`data_gouv_resource_id`: format `"zip"` and the area's title. -/
def matchesResource (area : String) (r : Resource) : Bool :=
  r.format == "zip" &&
    ((area == "nat" && r.title == "Export National") ||
      (area != "nat" && r.title == "Export Départemental " ++ area))

/-- `data_gouv_resource_id(dataset_id, area)` from the source, as a
function of the fetched `resources` list: the first resource matching
format and title, else `None`. (A non-200 fetch raises before the loop and
is part of the `portal` stage oracle of the orchestrator model.) -/
def data_gouv_resource_id (area : String) : List Resource → Option String
  | [] => none
  | r :: rest =>
    if matchesResource area r then some r.id
    else data_gouv_resource_id area rest

/-- Default of the `format` parameter of `publish_on_data_gouv`:
the string `"zip"`. -/
def publish_on_data_gouv_default_format : PyVal :=
  PyVal.str "zip"

/-- Default of the `format` parameter of `update_resource_metadata`: the
bare name `zip`, i.e. the Python built-in `zip` — not the string
`"zip"`. -/
def update_resource_metadata_default_format : PyVal :=
  PyVal.builtinZip

/-- The request body built by `update_resource_metadata`. -/
def update_resource_metadata_body (title description public_url : String)
    (archive_size : Nat) (archive_sha1 : String) (format : PyVal) :
    ResourceBody :=
  { title := title, description := description, rtype := "main",
    url := public_url, filetype := "remote", format := format,
    filesize := archive_size, checksumType := "sha1",
    checksumValue := archive_sha1 }

/-- The request body built by `data_gouv_create_resource`. -/
def data_gouv_create_resource_body (title description public_url : String)
    (archive_size : Nat) (archive_sha1 : String) (format : PyVal) :
    ResourceBody :=
  { title := title, description := description, rtype := "main",
    url := public_url, filetype := "remote", format := format,
    filesize := archive_size, checksumType := "sha1",
    checksumValue := archive_sha1 }

/-- The title `publish_on_data_gouv` derives from the area. -/
def derivedTitle (area : String) : String :=
  if area == "nat" then "Export National"
  else "Export Départemental " ++ area

/-- The description `publish_on_data_gouv` derives from the area. -/
def derivedDescription (area : String) : String :=
  if area == "nat" then
    "Export du RNB au format csv pour l’ensemble du territoire français."
  else
    "Export du RNB au format csv pour le département " ++ area ++ "."

/-- `publish_on_data_gouv(area, public_url, archive_size, archive_sha1,
format)` from the source, as a function of the fetched `resources` list,
returning the portal calls it performs: one `PUT` to the resolved resource
id when one matches, else one `POST`. -/
def publish_on_data_gouv (area public_url : String) (archive_size : Nat)
    (archive_sha1 : String) (format : PyVal) (resources : List Resource) :
    List PortalCall :=
  match data_gouv_resource_id area resources with
  | some resource_id =>
    [PortalCall.update resource_id
      (update_resource_metadata_body (derivedTitle area)
        (derivedDescription area) public_url archive_size archive_sha1
        format)]
  | none =>
    [PortalCall.create
      (data_gouv_create_resource_body (derivedTitle area)
        (derivedDescription area) public_url archive_size archive_sha1
        format)]

/-! ## Task signatures (`get_area_publish_task`)

`dpts_list` comes from `batid.services.administrative_areas`, which is not
part of the sources at hand; it is passed as an explicit list parameter. -/

/-- A celery `Signature(task, args, immutable=True)`. -/
structure TaskSignature where
  task : String
  args : List String
  immutable : Bool
deriving DecidableEq, Repr

/-- Modelled from the spec: `dpts_list()` of
`batid.services.administrative_areas` is not among the sources; the spec
describes it only as the known, finite list of department codes (containing
for instance `"75"` and not containing `"nat"`). It is therefore modeled as
an explicit parameter `dpts` of `get_area_publish_task`.

`get_area_publish_task(area)` from the source: the national task signature
for `"nat"`, the departmental signature carrying `[area]` for a known
department code, and otherwise a `ValueError` whose message names the
area. -/
def get_area_publish_task (dpts : List String) (area : String) :
    Except String TaskSignature :=
  if area = "nat" then
    Except.ok ⟨"batid.tasks.publish_datagouv_national", [], true⟩
  else if dpts.contains area then
    Except.ok ⟨"batid.tasks.publish_datagouv_dpt", [area], true⟩
  else
    Except.error ("Unknown area: " ++ area ++
      ". It must be either \x27nat\x27 or a department code. \x27" ++ area ++
      "\x27 given.")

/-- `areaOk env area = true` iff no pipeline stage raises for `area`, i.e.
that area's publication run completes without an exception. -/
def areaOk (env : Env) (area : String) : Bool :=
  !env area Stage.createDir && !env area Stage.createCsv &&
    !env area Stage.createArchive && !env area Stage.upload &&
    !env area Stage.portal

/-! ## Helper lemmas -/

theorem isPrefixB_self_append (pat r : List Char) :
    isPrefixB pat (pat ++ r) = true := by
  induction pat with
  | nil => rfl
  | cons a as ih => simp [isPrefixB, ih]

theorem isSubB_nil_pat (s : List Char) : isSubB [] s = true := by
  cases s with
  | nil => rfl
  | cons c rest => simp [isSubB, isPrefixB]

theorem isSubB_of_append (pat l r : List Char) :
    isSubB pat (l ++ (pat ++ r)) = true := by
  induction l with
  | nil =>
    cases pat with
    | nil => simpa using isSubB_nil_pat r
    | cons p ps =>
      simp only [List.nil_append, List.cons_append]
      simp [isSubB, isPrefixB_self_append (p :: ps) r, isPrefixB]
      have h := isPrefixB_self_append (p :: ps) r
      simp [isPrefixB] at h
      tauto
  | cons c cs ih =>
    simp only [List.cons_append]
    simp [isSubB, ih]

theorem data_gouv_resource_id_first (area : String) (pre : List Resource)
    (r : Resource) (post : List Resource)
    (hpre : ∀ p ∈ pre, matchesResource area p = false)
    (hr : matchesResource area r = true) :
    data_gouv_resource_id area (pre ++ r :: post) = some r.id := by
  induction pre with
  | nil => simp [data_gouv_resource_id, hr]
  | cons p ps ih =>
    have hp := hpre p (by simp)
    simp only [List.cons_append, data_gouv_resource_id, hp]
    simp only [Bool.false_eq_true, if_false]
    exact ih fun q hq => hpre q (by simp [hq])

theorem data_gouv_resource_id_none_iff (area : String) (rs : List Resource) :
    data_gouv_resource_id area rs = none ↔
      ∀ r ∈ rs, matchesResource area r = false := by
  induction rs with
  | nil => simp [data_gouv_resource_id]
  | cons r rest ih =>
    by_cases h : matchesResource area r = true
    · simp [data_gouv_resource_id, h]
    · simp only [Bool.not_eq_true] at h
      simp [data_gouv_resource_id, h, ih]

/-! ## Claims -/

/-- C10: for the empty area list, `publish` returns `True` and performs no
side effect: the filesystem, the clock and the event log are unchanged. -/
theorem publish_empty_list (env : Env) (st : St) :
    publish env [] st = (Except.ok true, st) := rfl

/-- C2 (counterexample): at archive size `S = 1500` the part size computed
by `upload_to_s3` is `max(1, int(1500 * 1.2 / 1000)) = 1`, and dividing the
archive into parts of that size yields `1500 / 1 = 1500 > 1000` parts, so
the claimed bound `S / part_size ≤ 1000` fails for `S ≥ 1` in general. -/
theorem part_size_bound_fails_at_1500 :
    part_size 1500 = 1 ∧ ¬ (1500 ≤ 1000 * part_size 1500) := by decide

/-- C2 (amended): the part size computed by `upload_to_s3` equals
`max(1, S * 1.2 / 1000)` integer-truncated (with `1.2 / 1000 = 6 / 5000`
exactly), and for every archive size `S` with `S ≤ 1000` or `S ≥ 5000` —
in particular the representative sizes 1 MB and 5 GB — dividing the
archive into parts of that size yields at most 1000 parts, i.e.
`S ≤ 1000 * part_size S`. -/
theorem part_size_parts_bound (S : Nat) (h : S ≤ 1000 ∨ 5000 ≤ S) :
    part_size S = max 1 (6 * S / 5000) ∧ S ≤ 1000 * part_size S := by
  refine ⟨rfl, ?_⟩
  unfold part_size
  rcases h with h | h
  · have hm : 1 ≤ max 1 (6 * S / 5000) := Nat.le_max_left _ _
    omega
  · have hq : 1 ≤ 6 * S / 5000 := by omega
    rw [Nat.max_eq_right hq]
    omega

/-- C2 witness at the representative sizes 1 MB and 5 GB. -/
theorem part_size_parts_bound_witness :
    (part_size 1048576 = max 1 (6 * 1048576 / 5000)
      ∧ 1048576 ≤ 1000 * part_size 1048576)
    ∧ (part_size 5368709120 = max 1 (6 * 5368709120 / 5000)
      ∧ 5368709120 ≤ 1000 * part_size 5368709120) :=
  ⟨part_size_parts_bound 1048576 (by norm_num),
    part_size_parts_bound 5368709120 (by norm_num)⟩

/-- C9: `data_gouv_resource_id` returns the id of the first resource in
list order matching both format `"zip"` and the area's title (in
particular when several match), and returns `None` exactly when no
resource matches. -/
theorem data_gouv_resource_id_spec (area : String) :
    (∀ pre r post, (∀ p ∈ pre, matchesResource area p = false) →
      matchesResource area r = true →
      data_gouv_resource_id area (pre ++ r :: post) = some r.id)
    ∧ (∀ rs, data_gouv_resource_id area rs = none ↔
      ∀ r ∈ rs, matchesResource area r = false) :=
  ⟨fun pre r post h1 h2 => data_gouv_resource_id_first area pre r post h1 h2,
    fun rs => data_gouv_resource_id_none_iff area rs⟩

/-- C9 witness: with two matching `"zip"` resources for area `"nat"`, the
first one's id is returned; with only a non-`"zip"` resource, `None`. -/
theorem data_gouv_resource_id_spec_witness :
    data_gouv_resource_id "nat"
      ([] ++ Resource.mk "zip" "Export National" "r1"
        :: [Resource.mk "zip" "Export National" "r2"]) = some "r1"
    ∧ data_gouv_resource_id "nat" [Resource.mk "csv" "Export National" "r3"]
      = none :=
  ⟨(data_gouv_resource_id_spec "nat").1 []
      (Resource.mk "zip" "Export National" "r1")
      [Resource.mk "zip" "Export National" "r2"] (by simp) (by decide),
    ((data_gouv_resource_id_spec "nat").2
      [Resource.mk "csv" "Export National" "r3"]).mpr (by decide)⟩

/-- C4: when the dataset's resource list contains a `"zip"` resource
titled with the area's derived title, `publish_on_data_gouv` performs
exactly one `PUT` targeting the first such resource's id and no `POST`
(never a duplicate); when none matches, it performs exactly one `POST`
whose body carries the derived title, format `"zip"` and a checksum object
of type `"sha1"`. -/
theorem publish_on_data_gouv_create_or_update (area public_url : String)
    (archive_size : Nat) (archive_sha1 : String) (resources : List Resource) :
    (∀ pre r post, resources = pre ++ r :: post →
      (∀ p ∈ pre, matchesResource area p = false) →
      matchesResource area r = true →
      ∃ body, publish_on_data_gouv area public_url archive_size archive_sha1
        (PyVal.str "zip") resources = [PortalCall.update r.id body])
    ∧ ((∀ r ∈ resources, matchesResource area r = false) →
      ∃ body, publish_on_data_gouv area public_url archive_size archive_sha1
          (PyVal.str "zip") resources = [PortalCall.create body]
        ∧ body.title = derivedTitle area
        ∧ body.format = PyVal.str "zip"
        ∧ body.checksumType = "sha1") := by
  constructor
  · intro pre r post hsplit hpre hr
    have hid : data_gouv_resource_id area resources = some r.id := by
      rw [hsplit]
      exact data_gouv_resource_id_first area pre r post hpre hr
    refine ⟨update_resource_metadata_body (derivedTitle area)
      (derivedDescription area) public_url archive_size archive_sha1
      (PyVal.str "zip"), ?_⟩
    simp only [publish_on_data_gouv, hid]
  · intro hnone
    have hid : data_gouv_resource_id area resources = none :=
      (data_gouv_resource_id_none_iff area resources).mpr hnone
    refine ⟨data_gouv_create_resource_body (derivedTitle area)
      (derivedDescription area) public_url archive_size archive_sha1
      (PyVal.str "zip"), ?_, rfl, rfl, rfl⟩
    simp only [publish_on_data_gouv, hid]

/-- C4 witness: area `"nat"` with an existing matching resource takes the
update path to that resource's id; area `"75"` with an empty resource list
takes the create path with title `"Export Départemental 75"`, format
`"zip"` and checksum type `"sha1"`. -/
theorem publish_on_data_gouv_create_or_update_witness :
    (∃ body, publish_on_data_gouv "nat" "u" 5 "h" (PyVal.str "zip")
      ([] ++ Resource.mk "zip" "Export National" "abc" :: [])
      = [PortalCall.update "abc" body])
    ∧ (∃ body, publish_on_data_gouv "75" "u" 5 "h" (PyVal.str "zip") []
        = [PortalCall.create body]
      ∧ body.title = derivedTitle "75"
      ∧ body.format = PyVal.str "zip"
      ∧ body.checksumType = "sha1") :=
  ⟨(publish_on_data_gouv_create_or_update "nat" "u" 5 "h"
      ([] ++ Resource.mk "zip" "Export National" "abc" :: [])).1
      [] (Resource.mk "zip" "Export National" "abc") [] rfl (by simp)
      (by decide),
    (publish_on_data_gouv_create_or_update "75" "u" 5 "h" []).2 (by simp)⟩

/-- C8: the default of `update_resource_metadata`'s `format` parameter is
the Python built-in `zip` itself, not the string `"zip"`, so a call
omitting `format` would place that object in the request body; and the
module's only call chain into `update_resource_metadata` — through
`publish_on_data_gouv`, whose own default is the string `"zip"` — always
passes the string `"zip"`, so the defective default is never exercised. -/
theorem update_resource_metadata_default_format_spec :
    update_resource_metadata_default_format = PyVal.builtinZip
    ∧ update_resource_metadata_default_format ≠ PyVal.str "zip"
    ∧ (∀ title description public_url archive_size archive_sha1,
      (update_resource_metadata_body title description public_url
        archive_size archive_sha1 update_resource_metadata_default_format).format
        = PyVal.builtinZip)
    ∧ (∀ area public_url archive_size archive_sha1 resources,
      ∀ call ∈ publish_on_data_gouv area public_url archive_size archive_sha1
        publish_on_data_gouv_default_format resources,
        call.format = PyVal.str "zip") := by
  refine ⟨rfl, by decide, fun _ _ _ _ _ => rfl, ?_⟩
  intro area public_url archive_size archive_sha1 resources call hcall
  unfold publish_on_data_gouv at hcall
  rcases h : data_gouv_resource_id area resources with _ | rid <;>
    rw [h] at hcall <;> simp at hcall <;> subst hcall <;> rfl

/-- C8 witness: the create call produced for area `"75"` on a fresh
dataset carries the string `"zip"` as its format. -/
theorem update_resource_metadata_default_format_spec_witness :
    PortalCall.format
      (PortalCall.create
        (data_gouv_create_resource_body (derivedTitle "75")
          (derivedDescription "75") "u" 5 "h" publish_on_data_gouv_default_format))
      = PyVal.str "zip" :=
  update_resource_metadata_default_format_spec.2.2.2 "75" "u" 5 "h" [] _
    (by decide)

/-- C6: `get_area_publish_task` returns the national task signature with no
positional arguments for `"nat"`; the departmental task signature with the
area as its single argument for any area in the department list; and for
any other area an error whose message names the given area. -/
theorem get_area_publish_task_spec (dpts : List String) (area : String) :
    get_area_publish_task dpts "nat"
      = Except.ok ⟨"batid.tasks.publish_datagouv_national", [], true⟩
    ∧ (area ≠ "nat" → area ∈ dpts →
      get_area_publish_task dpts area
        = Except.ok ⟨"batid.tasks.publish_datagouv_dpt", [area], true⟩)
    ∧ (area ≠ "nat" → area ∉ dpts →
      ∃ msg, get_area_publish_task dpts area = Except.error msg
        ∧ containsSub msg area = true) := by
  refine ⟨rfl, ?_, ?_⟩
  · intro hne hmem
    simp [get_area_publish_task, hne, hmem]
  · intro hne hmem
    refine ⟨"Unknown area: " ++ area ++
      ". It must be either \x27nat\x27 or a department code. \x27" ++ area ++
      "\x27 given.", ?_, ?_⟩
    · simp [get_area_publish_task, hne, hmem]
    · unfold containsSub
      simp only [String.data_append, List.append_assoc]
      exact isSubB_of_append area.data _ _

/-- C6 witness: with the department list `["75"]`, area `"75"` yields the
departmental signature with `["75"]`, and area `"XX"` yields an error whose
message contains `"XX"`. -/
theorem get_area_publish_task_spec_witness :
    get_area_publish_task ["75"] "75"
      = Except.ok ⟨"batid.tasks.publish_datagouv_dpt", ["75"], true⟩
    ∧ ∃ msg, get_area_publish_task ["75"] "XX" = Except.error msg
      ∧ containsSub msg "XX" = true :=
  ⟨(get_area_publish_task_spec ["75"] "75").2.1 (by decide) (by decide),
    (get_area_publish_task_spec ["75"] "XX").2.2 (by decide) (by decide)⟩

theorem isSubB_append_left (pat l r : List Char) (h : isSubB pat r = true) :
    isSubB pat (l ++ r) = true := by
  induction l with
  | nil => simpa
  | cons c cs ih => simp [isSubB, ih]

theorem isSubB_self_append (pat r : List Char) :
    isSubB pat (pat ++ r) = true := by
  cases pat with
  | nil => simpa using isSubB_nil_pat r
  | cons p ps =>
    have h := isPrefixB_self_append (p :: ps) r
    simp only [List.cons_append] at h
    simp [isSubB, h]

set_option maxRecDepth 1000000 in
/-- C5: the SQL produced by `sql_query` contains the department join
fragment exactly when the area is not `"nat"`, likewise for the department
filter marker `" AND dpt.code = "`, and for a department area it contains
the full filter fragment `" AND dpt.code = \x27\x7barea\x7d\x27"`. -/
theorem sql_query_department_fragments (area : String) :
    (containsSub (sql_query area) dpt_join_frag = true ↔ area ≠ "nat")
    ∧ (containsSub (sql_query area) " AND dpt.code = " = true ↔ area ≠ "nat")
    ∧ (area ≠ "nat" →
      containsSub (sql_query area) (dpt_where_frag area) = true) := by
  by_cases h : area = "nat"
  · subst h
    have h1 : containsSub (sql_query "nat") dpt_join_frag = false := by decide
    have h2 : containsSub (sql_query "nat") " AND dpt.code = " = false := by
      decide
    exact ⟨by simp [h1], by simp [h2], fun hc => absurd rfl hc⟩
  · have hq : sql_query area
        = sql_head ++ dpt_join_frag ++ sql_mid ++ dpt_where_frag area ++
          sql_tail := by
      simp [sql_query, h]
    refine ⟨⟨fun _ => h, fun _ => ?_⟩, ⟨fun _ => h, fun _ => ?_⟩, fun _ => ?_⟩
    · unfold containsSub
      rw [hq]
      simp only [String.data_append, List.append_assoc]
      exact isSubB_append_left _ _ _ (isSubB_self_append _ _)
    · unfold containsSub
      rw [hq]
      have hsplit : (" AND dpt.code = \x27" : String).data
          = (" AND dpt.code = " : String).data ++ ['\x27'] := by decide
      simp only [String.data_append, dpt_where_frag, hsplit, List.append_assoc]
      refine isSubB_append_left _ _ _ ?_
      refine isSubB_append_left _ _ _ ?_
      refine isSubB_append_left _ _ _ ?_
      exact isSubB_self_append _ _
    · unfold containsSub
      rw [hq]
      simp only [String.data_append, List.append_assoc]
      refine isSubB_append_left _ _ _ ?_
      refine isSubB_append_left _ _ _ ?_
      refine isSubB_append_left _ _ _ ?_
      exact isSubB_self_append _ _

/-- C5 witness: area `"75"` yields a query containing both the join
fragment and the filter fragment on `'75'`. -/
theorem sql_query_department_fragments_witness :
    containsSub (sql_query "75") (dpt_where_frag "75") = true
    ∧ containsSub (sql_query "75") dpt_join_frag = true :=
  ⟨(sql_query_department_fragments "75").2.2 (by decide),
    (sql_query_department_fragments "75").1.mpr (by decide)⟩

theorem sha1LoopRead_absorb (bufSize : Nat) (hb : ¬ bufSize = 0) :
    ∀ (n : Nat) (contents : List Nat), contents.length ≤ n →
      ∀ acc : List Nat,
        sha1LoopRead bufSize ⟨acc⟩ contents = ⟨acc ++ contents⟩ := by
  intro n
  induction n with
  | zero =>
    intro contents hlen acc
    have hnil : contents = [] :=
      List.eq_nil_of_length_eq_zero (Nat.le_zero.mp hlen)
    subst hnil
    rw [sha1LoopRead.eq_def]
    simp [hb]
  | succ n ih =>
    intro contents hlen acc
    rw [sha1LoopRead.eq_def]
    rw [dif_neg hb]
    cases contents with
    | nil => simp
    | cons c rest =>
      simp only
      have hup : hashUpdate ⟨acc⟩ ((c :: rest).take bufSize)
          = ⟨acc ++ (c :: rest).take bufSize⟩ := rfl
      rw [hup, ih ((c :: rest).drop bufSize)
        (by simp only [List.length_drop, List.length_cons] at *; omega)
        (acc ++ (c :: rest).take bufSize)]
      rw [List.append_assoc, List.take_append_drop]

/-- C3: for every file contents — of any length, in particular one that is
not a multiple of the 128 KiB read buffer — `sha1sum` computed by
fixed-size chunked reads returns the same hex digest as a single-pass
SHA-1 over the whole contents. -/
theorem sha1sum_eq_single_pass (contents : List Nat) :
    sha1sum contents = sha1_single_pass contents := by
  unfold sha1sum sha1_single_pass
  have hnew : (sha1New : HashObj) = ⟨[]⟩ := rfl
  rw [hnew,
    sha1LoopRead_absorb 131072 (by omega) contents.length contents le_rfl []]
  simp [hexdigest]


theorem run_pipeline_fs (env : Env) (area : String) (st : St) :
    ((run_pipeline env area st).2).fs = st.fs := by
  unfold run_pipeline run_stage
  by_cases h1 : env area Stage.createCsv = true <;>
    by_cases h2 : env area Stage.createArchive = true <;>
      by_cases h3 : env area Stage.upload = true <;>
        by_cases h4 : env area Stage.portal = true <;>
          simp [h1, h2, h3, h4]

theorem create_directory_cases (env : Env) (area : String) (st : St) :
    (∃ e, create_directory env area st
      = (Except.error e, { st with t := st.t + 1 }))
    ∨ (dirName area st.t ∉ st.fs
      ∧ create_directory env area st
        = (Except.ok (dirName area st.t),
          { st with
              t := st.t + 1
              fs := dirName area st.t :: st.fs
              log := st.log ++ [Event.mkdir (dirName area st.t)] })) := by
  unfold create_directory
  by_cases h1 : env area Stage.createDir = true
  · exact Or.inl ⟨Err.injected Stage.createDir, by simp [h1]⟩
  · by_cases h2 : dirName area st.t ∈ st.fs
    · exact Or.inl ⟨Err.fileExists (dirName area st.t), by simp [h1, h2]⟩
    · exact Or.inr ⟨h2, by simp [h1, h2]⟩

theorem cleanup_directory_not_mem (name : String) (st : St)
    (h : name ∉ st.fs) :
    cleanup_directory name st = (Except.error (Err.fileNotFound name), st) := by
  unfold cleanup_directory
  simp [h]

theorem cleanup_directory_cons (name : String) (st : St) (l : List String)
    (hfs : st.fs = name :: l) :
    cleanup_directory name st
      = (Except.ok (),
        { st with fs := l, log := st.log ++ [Event.rmdir name] }) := by
  unfold cleanup_directory
  rw [hfs]
  simp [List.erase_cons_head]

theorem publish_area_fs (env : Env) (area : String) (dv : Option String)
    (st : St) (hdv : ∀ d, dv = some d → d ∉ st.fs) :
    ((publish_area env area dv st).2.2).fs = st.fs
    ∧ ∀ d, (publish_area env area dv st).2.1 = some d →
      d ∉ ((publish_area env area dv st).2.2).fs := by
  unfold publish_area
  rcases create_directory_cases env area st with ⟨e, hcd⟩ | ⟨hnm, hcd⟩
  · rw [hcd]
    dsimp only
    cases dv with
    | none => simp
    | some d =>
      dsimp only
      have hd : d ∉ ({ st with t := st.t + 1 } : St).fs := hdv d rfl
      rw [cleanup_directory_not_mem d _ hd]
      dsimp only
      refine ⟨rfl, fun d1 hd1 => ?_⟩
      simp only [Option.some.injEq] at hd1
      subst hd1
      exact hdv _ rfl
  · rw [hcd]
    dsimp only
    rcases hp : run_pipeline env area
        { st with
            t := st.t + 1
            fs := dirName area st.t :: st.fs
            log := st.log ++ [Event.mkdir (dirName area st.t)] ++
              [Event.processing area] } with ⟨r, st2⟩
    have hfs2 : st2.fs = dirName area st.t :: st.fs := by
      have h := run_pipeline_fs env area
        { st with
            t := st.t + 1
            fs := dirName area st.t :: st.fs
            log := st.log ++ [Event.mkdir (dirName area st.t)] ++
              [Event.processing area] }
      rw [hp] at h
      exact h
    cases r with
    | ok u =>
      dsimp only
      rw [cleanup_directory_cons (dirName area st.t) st2 st.fs hfs2]
      dsimp only
      refine ⟨rfl, fun d1 hd1 => ?_⟩
      simp only [Option.some.injEq] at hd1
      subst hd1
      exact hnm
    | error e =>
      dsimp only
      rw [cleanup_directory_cons (dirName area st.t) st2 st.fs hfs2]
      dsimp only
      refine ⟨rfl, fun d1 hd1 => ?_⟩
      simp only [Option.some.injEq] at hd1
      subst hd1
      exact hnm

theorem publish_loop_fs (env : Env) (areas : List String) :
    ∀ (dv : Option String) (st : St),
      (∀ d, dv = some d → d ∉ st.fs) →
      ((publish_loop env areas dv st).2).fs = st.fs := by
  induction areas with
  | nil => intro dv st _; rfl
  | cons a rest ih =>
    intro dv st h
    have hpa := publish_area_fs env a dv st h
    unfold publish_loop
    rcases hp : publish_area env a dv st with ⟨r, dv1, st1⟩
    rw [hp] at hpa
    simp only at hpa
    cases r with
    | ok u =>
      simp only
      rw [ih dv1 st1 hpa.2]
      exact hpa.1
    | error e => exact hpa.1

/-- C1: for every area list, every initial filesystem and every stage
outcome — including an exception in directory creation, CSV extraction,
archiving, upload or portal publication — after `publish` returns or
raises, the set of scratch directories on disk is exactly what it was
before the call: every workspace directory created during the run has been
removed by the `finally`-scoped `cleanup_directory`. -/
theorem publish_cleans_workspace (env : Env) (areas : List String) (st : St) :
    ((publish env areas st).2).fs = st.fs :=
  publish_loop_fs env areas none st (fun d hd => by cases hd)

theorem run_pipeline_ok (env : Env) (a : String)
    (h2 : env a Stage.createCsv = false)
    (h3 : env a Stage.createArchive = false)
    (h4 : env a Stage.upload = false) (h5 : env a Stage.portal = false)
    (st0 : St) :
    ∃ st2 : St, run_pipeline env a st0 = (Except.ok (), st2)
      ∧ st2.fs = st0.fs := by
  unfold run_pipeline run_stage
  simp [h2, h3, h4, h5]

theorem run_pipeline_err (env : Env) (a : String) (st0 : St)
    (h : env a Stage.createCsv = true ∨ env a Stage.createArchive = true
      ∨ env a Stage.upload = true ∨ env a Stage.portal = true) :
    ∀ u, (run_pipeline env a st0).1 ≠ Except.ok u := by
  intro u
  unfold run_pipeline run_stage
  by_cases h2 : env a Stage.createCsv = true <;>
    by_cases h3 : env a Stage.createArchive = true <;>
      by_cases h4 : env a Stage.upload = true <;>
        by_cases h5 : env a Stage.portal = true <;>
          simp [h2, h3, h4, h5] at h ⊢

theorem publish_area_ok (env : Env) (a : String) (dv : Option String)
    (st : St) (hok : areaOk env a = true) (hfs : st.fs = []) :
    ∃ st1 : St, publish_area env a dv st
      = (Except.ok (), some (dirName a st.t), st1) ∧ st1.fs = [] := by
  simp only [areaOk, Bool.and_eq_true, Bool.not_eq_true'] at hok
  obtain ⟨⟨⟨⟨h1, h2⟩, h3⟩, h4⟩, h5⟩ := hok
  have hnm : dirName a st.t ∉ st.fs := by rw [hfs]; exact List.not_mem_nil _
  have hcd : create_directory env a st
      = (Except.ok (dirName a st.t),
        { st with
            t := st.t + 1
            fs := dirName a st.t :: st.fs
            log := st.log ++ [Event.mkdir (dirName a st.t)] }) := by
    unfold create_directory
    simp [h1, hnm]
  unfold publish_area
  rw [hcd]
  dsimp only
  obtain ⟨st2, hp2, hfs2⟩ := run_pipeline_ok env a h2 h3 h4 h5
    { st with
        t := st.t + 1
        fs := dirName a st.t :: st.fs
        log := st.log ++ [Event.mkdir (dirName a st.t)] ++
          [Event.processing a] }
  rw [hp2]
  dsimp only
  rw [cleanup_directory_cons (dirName a st.t) st2 st.fs hfs2]
  dsimp only
  exact ⟨_, rfl, hfs⟩

theorem publish_area_err (env : Env) (a : String) (dv : Option String)
    (st : St) (hbad : ¬ areaOk env a = true) :
    ∀ u, (publish_area env a dv st).1 ≠ Except.ok u := by
  intro u
  unfold publish_area
  rcases create_directory_cases env a st with ⟨e, hcd⟩ | ⟨hnm, hcd⟩
  · rw [hcd]
    dsimp only
    cases dv with
    | none => simp
    | some d =>
      dsimp only
      rcases hcl : cleanup_directory d { st with t := st.t + 1 } with ⟨cr, st2⟩
      cases cr <;> simp
  · have h1 : env a Stage.createDir = false := by
      rcases hflag : env a Stage.createDir with _ | _
      · rfl
      · exfalso
        have hbadcd : create_directory env a st
            = (Except.error (Err.injected Stage.createDir),
              { st with t := st.t + 1 }) := by
          unfold create_directory
          simp [hflag]
        rw [hbadcd] at hcd
        simp at hcd
    have hrest : env a Stage.createCsv = true
        ∨ env a Stage.createArchive = true
        ∨ env a Stage.upload = true ∨ env a Stage.portal = true := by
      simp only [areaOk, Bool.and_eq_true, Bool.not_eq_true'] at hbad
      by_cases h2 : env a Stage.createCsv = true <;>
        by_cases h3 : env a Stage.createArchive = true <;>
          by_cases h4 : env a Stage.upload = true <;>
            by_cases h5 : env a Stage.portal = true <;>
              simp [h1, h2, h3, h4, h5] at hbad ⊢
    rw [hcd]
    dsimp only
    rcases hp : run_pipeline env a
        { st with
            t := st.t + 1
            fs := dirName a st.t :: st.fs
            log := st.log ++ [Event.mkdir (dirName a st.t)] ++
              [Event.processing a] } with ⟨r, st2⟩
    cases r with
    | ok v =>
      exfalso
      have h := run_pipeline_err env a
        { st with
            t := st.t + 1
            fs := dirName a st.t :: st.fs
            log := st.log ++ [Event.mkdir (dirName a st.t)] ++
              [Event.processing a] } hrest v
      rw [hp] at h
      exact h rfl
    | error e =>
      dsimp only
      rcases hcl : cleanup_directory (dirName a st.t) st2 with ⟨cr, st3⟩
      cases cr <;> simp

theorem publish_loop_ok_iff (env : Env) (areas : List String) :
    ∀ (dv : Option String) (st : St), st.fs = [] →
      ((publish_loop env areas dv st).1 = Except.ok true ↔
        ∀ a ∈ areas, areaOk env a = true) := by
  induction areas with
  | nil => intro dv st _; simp [publish_loop]
  | cons a rest ih =>
    intro dv st hfs
    unfold publish_loop
    by_cases hok : areaOk env a = true
    · obtain ⟨st1, hpa, hfs1⟩ := publish_area_ok env a dv st hok hfs
      rw [hpa]
      dsimp only
      rw [ih (some (dirName a st.t)) st1 hfs1]
      constructor
      · intro h b hb
        rcases List.mem_cons.mp hb with hb | hb
        · rw [hb]; exact hok
        · exact h b hb
      · intro h b hb
        exact h b (List.mem_cons_of_mem a hb)
    · rcases hpa : publish_area env a dv st with ⟨r, dv1, st1⟩
      cases r with
      | ok u =>
        exfalso
        have h := publish_area_err env a dv st hok u
        rw [hpa] at h
        exact h rfl
      | error e =>
        dsimp only
        constructor
        · intro h; exact absurd h (by simp)
        · intro h; exact absurd (h a (List.mem_cons_self a rest)) hok

theorem publish_loop_trunc (env : Env) :
    ∀ (pre : List String) (a : String) (post : List String)
      (dv : Option String) (st : St), st.fs = [] →
      (∀ b ∈ pre, areaOk env b = true) → ¬ areaOk env a = true →
      publish_loop env (pre ++ a :: post) dv st
        = publish_loop env (pre ++ [a]) dv st := by
  intro pre
  induction pre with
  | nil =>
    intro a post dv st _ _ hbad
    simp only [List.nil_append]
    unfold publish_loop
    rcases hpa : publish_area env a dv st with ⟨r, dv1, st1⟩
    cases r with
    | ok u =>
      exfalso
      have h := publish_area_err env a dv st hbad u
      rw [hpa] at h
      exact h rfl
    | error e => rfl
  | cons p ps ih =>
    intro a post dv st hfs hpre hbad
    simp only [List.cons_append]
    unfold publish_loop
    obtain ⟨st1, hpa, hfs1⟩ :=
      publish_area_ok env p dv st (hpre p (List.mem_cons_self p ps)) hfs
    rw [hpa]
    dsimp only
    exact ih a post (some (dirName p st.t)) st1 hfs1
      (fun b hb => hpre b (List.mem_cons_of_mem p hb)) hbad

/-- C7: starting from a filesystem without leftover scratch directories,
`publish` processes the areas sequentially; it returns `True` exactly when
no area raised, and an exception while processing one area is re-raised
after that area's cleanup with no subsequent area processed: the whole run
is identical to the run on the list truncated right after the first
failing area. -/
theorem publish_sequential_abort (env : Env) (areas : List String) (st : St)
    (hfs : st.fs = []) :
    ((publish env areas st).1 = Except.ok true ↔
      ∀ a ∈ areas, areaOk env a = true)
    ∧ (∀ pre a post, areas = pre ++ a :: post →
      (∀ b ∈ pre, areaOk env b = true) → ¬ areaOk env a = true →
      publish env areas st = publish env (pre ++ [a]) st) := by
  constructor
  · exact publish_loop_ok_iff env areas none st hfs
  · intro pre a post hsplit hpre hbad
    rw [hsplit]
    exact publish_loop_trunc env pre a post none st hfs hpre hbad

/-- C7 witness: with an oracle failing every stage of area `"13"` and a
clean filesystem, publishing `["75", "13", "33"]` is not a success (the
iff instantiates), and the run equals the truncated run on `["75", "13"]`
— area `"33"` is never processed. -/
theorem publish_sequential_abort_witness :
    ((publish (fun b _ => b == "13") ["75", "13", "33"] ⟨[], 0, []⟩).1
        = Except.ok true ↔
      ∀ a ∈ ["75", "13", "33"], areaOk (fun b _ => b == "13") a = true)
    ∧ publish (fun b _ => b == "13") ["75", "13", "33"] ⟨[], 0, []⟩
      = publish (fun b _ => b == "13") (["75"] ++ ["13"]) ⟨[], 0, []⟩ :=
  ⟨(publish_sequential_abort (fun b _ => b == "13") ["75", "13", "33"]
      ⟨[], 0, []⟩ rfl).1,
    (publish_sequential_abort (fun b _ => b == "13") ["75", "13", "33"]
      ⟨[], 0, []⟩ rfl).2 ["75"] "13" ["33"] rfl (by decide) (by decide)⟩
